import Mathlib

/-!
Verification of the Reddit review tracker's ingestion/classification pipeline
(`src/app/api/reddit/route.ts`) and the dashboard's question detector
(`src/app/page.tsx`).  Strings are modelled as Lean `String`/`List Char`;
JavaScript numbers appearing in the confidence computation are modelled as `ℚ`
(the values involved are exactly representable); post counts are `ℤ`.
The JavaScript regular expressions used by the route are literal alternations
plus `\s*` and `\d+`, modelled by a small token matcher (`Tok`).
-/

/-- Lower-case a string character by character (model of `String.toLowerCase`). -/
def lowerChars (s : String) : List Char :=
  s.toList.map Char.toLower

/-- Lower-cased string (model of `s.toLowerCase()` kept as a `String`). -/
def lowerStr (s : String) : String :=
  String.mk (lowerChars s)

/-- Does the haystack start with the literal needle? -/
def startsWithLit : List Char → List Char → Bool
  | [], _ => true
  | _ :: _, [] => false
  | n :: ns, c :: cs => n == c && startsWithLit ns cs

/-- Does the needle occur contiguously anywhere in the haystack?
Model of JavaScript `hay.includes(needle)`. -/
def occursIn : List Char → List Char → Bool
  | n, [] => startsWithLit n []
  | n, c :: cs => startsWithLit n (c :: cs) || occursIn n cs

/-- JavaScript `hay.includes(needle)` with a string needle. -/
def jsIncludes (hay : List Char) (needle : String) : Bool :=
  occursIn needle.toList hay

theorem startsWithLit_iff (n : List Char) : ∀ h : List Char,
    startsWithLit n h = true ↔ ∃ r, h = n ++ r := by
  induction n with
  | nil =>
    intro h
    simp [startsWithLit]
  | cons a ns ih =>
    intro h
    cases h with
    | nil =>
      simp [startsWithLit]
    | cons c cs =>
      simp only [startsWithLit, Bool.and_eq_true, beq_iff_eq, ih]
      constructor
      · rintro ⟨rfl, r, rfl⟩
        exact ⟨r, rfl⟩
      · rintro ⟨r, hr⟩
        rw [List.cons_append] at hr
        obtain ⟨h1, h2⟩ := List.cons.injEq .. ▸ hr
        exact ⟨h1.symm, r, h2⟩

theorem occursIn_iff (n : List Char) : ∀ h : List Char,
    occursIn n h = true ↔ ∃ l r, h = l ++ n ++ r := by
  intro h
  induction h with
  | nil =>
    simp only [occursIn, startsWithLit_iff]
    constructor
    · rintro ⟨r, hr⟩
      exact ⟨[], r, by simpa using hr⟩
    · rintro ⟨l, r, hr⟩
      refine ⟨r, ?_⟩
      rcases List.append_eq_nil.mp (List.append_eq_nil.mp hr.symm).1 with ⟨rfl, rfl⟩
      simpa using hr
  | cons c cs ih =>
    simp only [occursIn, Bool.or_eq_true, startsWithLit_iff, ih]
    constructor
    · rintro (⟨r, hr⟩ | ⟨l, r, hr⟩)
      · exact ⟨[], r, by simpa using hr⟩
      · exact ⟨c :: l, r, by simp [hr]⟩
    · rintro ⟨l, r, hr⟩
      cases l with
      | nil => exact Or.inl ⟨r, by simpa using hr⟩
      | cons d l' =>
        right
        rw [List.cons_append, List.cons_append] at hr
        obtain ⟨-, h2⟩ := List.cons.injEq .. ▸ hr
        exact ⟨l', r, by simpa using h2⟩

/-- Tokens of the route's regular expressions: a literal run, `\s*`, or `\d+`. -/
inductive Tok where
  | lit (s : List Char)
  | wsStar
  | digitsPlus
deriving DecidableEq

/-- Literal token built from a string. -/
def lit (s : String) : Tok :=
  Tok.lit s.toList

/-- Greedily drop leading ASCII digits. -/
def dropDigits (cs : List Char) : List Char :=
  cs.dropWhile Char.isDigit

theorem dropDigits_length_le (cs : List Char) : (dropDigits cs).length ≤ cs.length :=
  (List.dropWhile_sublist Char.isDigit).length_le

/-- Match a token sequence at the start of the text.  In the source regexes
`\s*` is always followed by a token that starts with a non-whitespace
character (`g` or a digit), so consuming whitespace greedily is exact; and
`\d+` only occurs at the end of an alternative, so consuming digits greedily
is exact as well. -/
def matchToks : List Tok → List Char → Bool
  | [], _ => true
  | Tok.lit s :: ts, cs =>
    startsWithLit s cs && matchToks ts (cs.drop s.length)
  | Tok.wsStar :: ts, cs =>
    matchToks ts (cs.dropWhile Char.isWhitespace)
  | Tok.digitsPlus :: ts, cs =>
    (match cs with
     | [] => false
     | c :: cs' => c.isDigit && matchToks ts (dropDigits cs'))

/-- Match a token sequence starting at any position (unanchored search). -/
def matchSomewhere (ts : List Tok) : List Char → Bool
  | [] => matchToks ts []
  | c :: cs => matchToks ts (c :: cs) || matchSomewhere ts cs

/-- Match an alternation of token sequences (model of a `|`-regex `.match`). -/
def patMatch (alts : List (List Tok)) (cs : List Char) : Bool :=
  alts.any (fun a => matchSomewhere a cs)

/-- A raw Reddit post as delivered by the listing/search endpoints
(interface `RedditPost` in the route). -/
structure RedditPost where
  id : String
  title : String
  selftext : String
  subreddit : String
  ups : ℤ
  num_comments : ℤ
  permalink : String
  created_utc : ℤ
deriving DecidableEq

/-- `/moto\s*g\d+|motog\d+|moto g series/i` -/
def motoGPat : List (List Tok) :=
  [[lit "moto", Tok.wsStar, lit "g", Tok.digitsPlus], [lit "motog", Tok.digitsPlus],
   [lit "moto g series"]]

/-- `/edge\s*\d+|moto edge|motorola edge/i` -/
def edgePat : List (List Tok) :=
  [[lit "edge", Tok.wsStar, Tok.digitsPlus], [lit "moto edge"], [lit "motorola edge"]]

/-- `/razr|flip|foldable/i` -/
def razrPat : List (List Tok) :=
  [[lit "razr"], [lit "flip"], [lit "foldable"]]

/-- `/buds|headphone|earbuds|audio|speaker/i` -/
def audioPat : List (List Tok) :=
  [[lit "buds"], [lit "headphone"], [lit "earbuds"], [lit "audio"], [lit "speaker"]]

/-- `/smart home|hub|monitor/i` -/
def smartHomePat : List (List Tok) :=
  [[lit "smart home"], [lit "hub"], [lit "monitor"]]

/-- `/charger|case|accessory|screen protector/i` -/
def accessoryPat : List (List Tok) :=
  [[lit "charger"], [lit "case"], [lit "accessory"], [lit "screen protector"]]

/-- `/battery|charging|power/i` -/
def batteryPat : List (List Tok) :=
  [[lit "battery"], [lit "charging"], [lit "power"]]

/-- `/camera|photo|video/i` -/
def cameraPat : List (List Tok) :=
  [[lit "camera"], [lit "photo"], [lit "video"]]

/-- `/software|update|android|ui/i` -/
def softwarePat : List (List Tok) :=
  [[lit "software"], [lit "update"], [lit "android"], [lit "ui"]]

/-- `categorizePost` from the route: sequential regex tests over the
lower-cased `title + " " + text`, first match wins, default `"General"`.
The `subreddit` parameter is unused, as in the source. -/
def categorizePost (title text subreddit : String) : String :=
  let content := lowerChars (title ++ " " ++ text)
  if patMatch motoGPat content then "Moto G Series"
  else if patMatch edgePat content then "Moto Edge Series"
  else if patMatch razrPat content then "Moto Razr/Foldable"
  else if patMatch audioPat content then "Audio Products"
  else if patMatch smartHomePat content then "Smart Home"
  else if patMatch accessoryPat content then "Accessories"
  else if patMatch batteryPat content then "Battery/Charging"
  else if patMatch cameraPat content then "Camera"
  else if patMatch softwarePat content then "Software/Updates"
  else "General"

/-- The route's category rules in source order, as (pattern, label) pairs. -/
def categoryRules : List (List (List Tok) × String) :=
  [(motoGPat, "Moto G Series"), (edgePat, "Moto Edge Series"),
   (razrPat, "Moto Razr/Foldable"), (audioPat, "Audio Products"),
   (smartHomePat, "Smart Home"), (accessoryPat, "Accessories"),
   (batteryPat, "Battery/Charging"), (cameraPat, "Camera"),
   (softwarePat, "Software/Updates")]

/-- First-matching-rule semantics over `categoryRules` with the `"General"`
fallback (the behaviour the specification ascribes to category assignment). -/
def firstMatchCategory (content : List Char) : String :=
  match categoryRules.find? (fun r => patMatch r.1 content) with
  | some r => r.2
  | none => "General"

/-- Sentiment labels. -/
inductive Sentiment where
  | positive
  | neutral
  | negative
deriving DecidableEq

/-- The route's fixed positive keyword list. -/
def positiveWords : List String :=
  ["great", "amazing", "excellent", "love", "perfect", "awesome", "fantastic",
   "good", "best", "impressed", "recommend", "solid", "happy", "satisfied",
   "beautiful", "smooth", "fast", "reliable", "worth", "upgrade"]

/-- The route's fixed negative keyword list. -/
def negativeWords : List String :=
  ["terrible", "awful", "hate", "worst", "bad", "horrible", "disappointed",
   "broken", "issues", "problem", "failed", "useless", "garbage", "overheating",
   "slow", "lag", "crash", "buggy", "defect", "regret"]

/-- `words.filter((word) => content.includes(word)).length` -/
def keywordCount (words : List String) (content : List Char) : ℕ :=
  (words.filter (fun w => jsIncludes content w)).length

/-- Number of pieces of `content.split(/\s+/)`: one more than the number of
maximal whitespace runs.  The flag records whether the previous character was
whitespace. -/
def wsRunCountAux : List Char → Bool → ℕ
  | [], _ => 0
  | c :: cs, prevWs =>
    if c.isWhitespace then
      (if prevWs then wsRunCountAux cs true else 1 + wsRunCountAux cs true)
    else wsRunCountAux cs false

/-- `content.split(/\s+/).length` -/
def jsSplitWsCount (cs : List Char) : ℕ :=
  1 + wsRunCountAux cs false

/-- JavaScript `Math.round` for the non-negative values arising here. -/
def jsRound (q : ℚ) : ℤ :=
  ⌊q + 1 / 2⌋

/-- Result record of `simpleAnalyzeSentiment`. -/
structure SentimentResult where
  sentiment : Sentiment
  confidence : ℚ
  reasoning : String
deriving DecidableEq

/-- `simpleAnalyzeSentiment` from the route: keyword counting over the
lower-cased `title + " " + text`, confidence from keyword density clamped to
`[40, 95]`, label decided by whether one count exceeds the other by more
than 1. -/
def simpleAnalyzeSentiment (title text : String) : SentimentResult :=
  let content := lowerChars (title ++ " " ++ text)
  let positiveCount := keywordCount positiveWords content
  let negativeCount := keywordCount negativeWords content
  let totalWords := jsSplitWsCount content
  let sentimentWords := positiveCount + negativeCount
  let confidence : ℚ :=
    min (jsRound ((sentimentWords : ℚ) / max ((totalWords : ℚ) / 10) 1 * 100) : ℚ) 95
  if negativeCount + 1 < positiveCount then
    { sentiment := Sentiment.positive, confidence := max confidence 40,
      reasoning := "Found " ++ toString positiveCount ++ " positive indicators" }
  else if positiveCount + 1 < negativeCount then
    { sentiment := Sentiment.negative, confidence := max confidence 40,
      reasoning := "Found " ++ toString negativeCount ++ " negative indicators" }
  else
    { sentiment := Sentiment.neutral, confidence := max confidence 40,
      reasoning := "Mixed or neutral sentiment indicators" }

/-- The sentiment label as the specification describes it: a function of the
positive and negative keyword counts alone. -/
def specSentimentLabel (p n : ℕ) : Sentiment :=
  if n + 1 < p then Sentiment.positive
  else if p + 1 < n then Sentiment.negative
  else Sentiment.neutral

/-- The route's `hasQuestion` test:
`/\?|how to|help|issue|problem|why|what|when|where|which/i.test(title + " " + selftext)`.
A case-insensitive literal alternation, so it is substring search over the
lower-cased combined text. -/
def questionRegexTest (title text : String) : Bool :=
  let s := lowerChars (title ++ " " ++ text)
  (["?", "how to", "help", "issue", "problem", "why", "what", "when", "where",
    "which"] : List String).any (fun w => jsIncludes s w)

/-- The dashboard's fixed help-seeking keyword list (`page.tsx`). -/
def questionKeywords : List String :=
  ["help", "how to", "why", "issue", "problem", "troubleshoot", "anyone know"]

/-- `detectQuestion` from `page.tsx`: raw title contains `"?"`, or the
lower-cased `title + " " + summary` contains a help-seeking keyword or the
literal word `"question"`. -/
def detectQuestion (title summary : String) : Bool :=
  let text := lowerChars (title ++ " " ++ summary)
  jsIncludes title.toList "?" || questionKeywords.any (fun k => jsIncludes text k) ||
    jsIncludes text "question"

/-- `post.subreddit.toLowerCase() === "motorola"` -/
def isPrimary (post : RedditPost) : Bool :=
  lowerStr post.subreddit == "motorola"

/-- `/moto\s*g|edge|razr/i` -/
def relevancePat : List (List Tok) :=
  [[lit "moto", Tok.wsStar, lit "g"], [lit "edge"], [lit "razr"]]

/-- The relevance predicate of the route's `.filter(...)`: keep posts from
r/motorola, else require a brand keyword or the product-line regex in the
lower-cased `title + " " + selftext`. -/
def relevantFilter (post : RedditPost) : Bool :=
  let content := lowerChars (post.title ++ " " ++ post.selftext)
  if isPrimary post then true
  else
    jsIncludes content "motorola" || jsIncludes content "moto" ||
      jsIncludes content "lenovo" || patMatch relevancePat content

/-- An entry of the JavaScript `Map` used for deduplication. -/
abbrev Entry := String × RedditPost

/-- Inserting one `[key, value]` pair into a JavaScript `Map` (as a list of
entries in iteration order): an existing key keeps its position but gets the
new value; a new key is appended. -/
def insertEntry (m : List Entry) (kv : Entry) : List Entry :=
  if m.any (fun e => e.1 == kv.1) then m.map (fun e => if e.1 == kv.1 then kv else e)
  else m ++ [kv]

/-- `new Map(pairs)`: insert the pairs left to right. -/
def jsMapEntries (l : List Entry) : List Entry :=
  l.foldl insertEntry []

/-- `[post.id, post]` -/
def entryOf (post : RedditPost) : Entry :=
  (post.id, post)

/-- The route's dedupe step:
`Array.from(new Map(allPosts.filter(...).map((post) => [post.id, post])).values())`. -/
def uniquePosts (allPosts : List RedditPost) : List RedditPost :=
  (jsMapEntries ((allPosts.filter relevantFilter).map entryOf)).map Prod.snd

/-- The route's sort comparator: r/motorola first, then engagement descending. -/
def jsCompare (a b : RedditPost) : ℤ :=
  if isPrimary a && !isPrimary b then -1
  else if isPrimary b && !isPrimary a then 1
  else (b.ups + b.num_comments) - (a.ups + a.num_comments)

/-- `a` sorts no later than `b` exactly when the comparator is ≤ 0. -/
def postLE (a b : RedditPost) : Bool :=
  jsCompare a b ≤ 0

/-- Engagement score `upvotes + comments` used by the comparator. -/
def engagement (p : RedditPost) : ℤ :=
  p.ups + p.num_comments

/-- The pure tail of the route's `fetchRedditPosts`, applied to the raw posts
accumulated from the network: dedupe/filter, sort by the comparator (JavaScript
`Array.prototype.sort` is a stable sort consistent with the comparator), and
`slice(0, 990)`. -/
def fetchRedditPosts (allPosts : List RedditPost) : List RedditPost :=
  ((uniquePosts allPosts).mergeSort postLE).take 990

/-- JavaScript `String.prototype.trim`: strip leading and trailing whitespace. -/
def trimChars (cs : List Char) : List Char :=
  ((cs.dropWhile Char.isWhitespace).reverse.dropWhile Char.isWhitespace).reverse

/-- The route's summary expression:
`selftext ? selftext.substring(0, 250).trim() + (selftext.length > 250 ? "..." : "") : "No description available"`. -/
def makeSummary (selftext : String) : String :=
  if selftext = "" then "No description available"
  else
    String.mk (trimChars (selftext.toList.take 250)) ++
      (if 250 < selftext.length then "..." else "")

/-- Left-pad a decimal numeral with zeros. -/
def zeroPad (width : ℕ) (n : ℕ) : String :=
  let s := toString n
  String.mk (List.replicate (width - s.length) '0') ++ s

/-- Proleptic Gregorian date from days since 1970-01-01 (year, month, day). -/
def civilFromDays (z : ℤ) : ℤ × ℕ × ℕ :=
  let z' := z + 719468
  let era : ℤ := z'.fdiv 146097
  let doe : ℕ := (z' - era * 146097).toNat
  let yoe : ℕ := (doe - doe / 1460 + doe / 36524 - doe / 146096) / 365
  let y : ℤ := (yoe : ℤ) + era * 400
  let doy : ℕ := doe - (365 * yoe + yoe / 4 - yoe / 100)
  let mp : ℕ := (5 * doy + 2) / 153
  let d : ℕ := doy - (153 * mp + 2) / 5 + 1
  let m : ℕ := if mp < 10 then mp + 3 else mp - 9
  (if m ≤ 2 then y + 1 else y, m, d)

/-- `new Date(ms).toISOString()` for timestamps whose year is in 0..9999 (the
extended-year format for dates outside that range is not modelled; no claim
depends on it). -/
def isoOfMs (ms : ℤ) : String :=
  let days := ms.fdiv 86400000
  let rest : ℕ := (ms - days * 86400000).toNat
  let ymd := civilFromDays days
  zeroPad 4 ymd.1.toNat ++ "-" ++ zeroPad 2 ymd.2.1 ++ "-" ++ zeroPad 2 ymd.2.2 ++
    "T" ++ zeroPad 2 (rest / 3600000) ++ ":" ++ zeroPad 2 (rest % 3600000 / 60000) ++
    ":" ++ zeroPad 2 (rest % 60000 / 1000) ++ "." ++ zeroPad 3 (rest % 1000) ++ "Z"

/-- A review as built in the refresh path of `GET`, including the two fields
(`redditId`, `fullContent`) kept only for the database write. -/
structure FullReview where
  id : ℕ
  title : String
  summary : String
  category : String
  sentiment : Sentiment
  confidence : ℚ
  reasoning : String
  upvotes : ℤ
  comments : ℤ
  redditUrl : String
  createdAt : String
  subreddit : String
  hasQuestion : Bool
  redditId : String
  fullContent : String
deriving DecidableEq

/-- The review shape returned by the endpoint (database-only fields dropped). -/
structure Review where
  id : ℕ
  title : String
  summary : String
  category : String
  sentiment : Sentiment
  confidence : ℚ
  reasoning : String
  upvotes : ℤ
  comments : ℤ
  redditUrl : String
  createdAt : String
  subreddit : String
  hasQuestion : Bool
deriving DecidableEq

/-- The per-post classification step of `GET`'s refresh path
(`posts.map(async (post, index) => ...)`). -/
def processPost (index : ℕ) (post : RedditPost) : FullReview :=
  let analysis := simpleAnalyzeSentiment post.title post.selftext
  { id := index + 1
    title := post.title
    summary := makeSummary post.selftext
    category := categorizePost post.title post.selftext post.subreddit
    sentiment := analysis.sentiment
    confidence := analysis.confidence
    reasoning := analysis.reasoning
    upvotes := post.ups
    comments := post.num_comments
    redditUrl := "https://reddit.com" ++ post.permalink
    createdAt := isoOfMs (post.created_utc * 1000)
    subreddit := post.subreddit
    hasQuestion := questionRegexTest post.title post.selftext
    redditId := post.id
    fullContent := post.selftext }

/-- Dropping the database-only fields for the response
(`({ redditId, fullContent, hasQuestion, ...review }) => ({ ...review, hasQuestion })`). -/
def toApiReview (r : FullReview) : Review :=
  { id := r.id
    title := r.title
    summary := r.summary
    category := r.category
    sentiment := r.sentiment
    confidence := r.confidence
    reasoning := r.reasoning
    upvotes := r.upvotes
    comments := r.comments
    redditUrl := r.redditUrl
    createdAt := r.createdAt
    subreddit := r.subreddit
    hasQuestion := r.hasQuestion }

/-- A row of the `reviews` cache table. -/
structure DbRow where
  id : String
  title : String
  content : String
  author : String
  subreddit : String
  url : String
  upvotes : ℤ
  comments : ℤ
  sentiment : Sentiment
  confidence : ℚ
  category : String
  has_question : Bool
  created_at : String
deriving DecidableEq

/-- The row written by the refresh path (`reviewsToStore`); the confidence is
divided by 100 to convert to the 0-1 range. -/
def toStoreRow (r : FullReview) : DbRow :=
  { id := r.redditId
    title := r.title
    content := r.fullContent
    author := "reddit_user"
    subreddit := r.subreddit
    url := r.redditUrl
    upvotes := r.upvotes
    comments := r.comments
    sentiment := r.sentiment
    confidence := r.confidence / 100
    category := r.category
    has_question := r.hasQuestion
    created_at := r.createdAt }

/-- The cached-path mapping of a database row to the response shape
(`cachedReviews.map((review, index) => ...)`): the stored confidence is passed
through unchanged. -/
def mapCachedRow (index : ℕ) (row : DbRow) : Review :=
  { id := index + 1
    title := row.title
    summary := row.content
    category := row.category
    sentiment := row.sentiment
    confidence := row.confidence
    reasoning := "Cached analysis"
    upvotes := row.upvotes
    comments := row.comments
    redditUrl := row.url
    createdAt := row.created_at
    subreddit := row.subreddit
    hasQuestion := row.has_question }

/-- Result of the Supabase cache read: `{ data: cachedReviews, error: fetchError }`. -/
structure CacheReadResult where
  data : Option (List DbRow)
  error : Option String
deriving DecidableEq

/-- Observable outcome of one `GET` request: a cached response, a freshly
fetched response, or the generic error response. -/
inductive GetOutcome where
  | cached (reviews : List Review)
  | fresh (reviews : List Review)
  | err (error : String) (details : String)
deriving DecidableEq

/-- HTTP status of an outcome: `NextResponse.json(...)` defaults to 200, the
catch branch sets `{ status: 500 }`. -/
def statusOf : GetOutcome → ℕ
  | GetOutcome.cached _ => 200
  | GetOutcome.fresh _ => 200
  | GetOutcome.err _ _ => 500

/-- Was the response served from the cache (no upstream pipeline run)? -/
def isCachedResponse : GetOutcome → Bool
  | GetOutcome.cached _ => true
  | _ => false

/-- The refresh path of `GET`: token exchange, fetch, classify, store.  A
token-exchange failure is the unhandled exception caught by the route's
`catch`, which answers `{ error: "Failed to fetch Reddit data", details }`
with status 500.  A failed upsert (`insertError`) is only logged and does not
influence the response. -/
def refreshPipeline (tokenRes : Except String String) (rawPosts : List RedditPost)
    (insertError : Option String) : GetOutcome :=
  match tokenRes with
  | Except.error msg => GetOutcome.err "Failed to fetch Reddit data" msg
  | Except.ok _ =>
    let reviews := (fetchRedditPosts rawPosts).mapIdx processPost
    GetOutcome.fresh (reviews.map toApiReview)

/-- The `GET` handler: serve the cache when no refresh is forced, the read
succeeded and at least one row came back; otherwise run the refresh path. -/
def GET (forceRefresh : Bool) (cache : CacheReadResult) (tokenRes : Except String String)
    (rawPosts : List RedditPost) (insertError : Option String) : GetOutcome :=
  if forceRefresh then refreshPipeline tokenRes rawPosts insertError
  else
    match cache.error, cache.data with
    | none, some rows =>
      if 0 < rows.length then GetOutcome.cached (rows.mapIdx mapCachedRow)
      else refreshPipeline tokenRes rawPosts insertError
    | _, _ => refreshPipeline tokenRes rawPosts insertError

/-! Helper lemmas. -/

theorem sentiment_eq_specLabel (a b : String) :
    (simpleAnalyzeSentiment a b).sentiment =
      specSentimentLabel (keywordCount positiveWords (lowerChars (a ++ " " ++ b)))
        (keywordCount negativeWords (lowerChars (a ++ " " ++ b))) := by
  by_cases h1 : keywordCount negativeWords (lowerChars (a ++ " " ++ b)) + 1 <
      keywordCount positiveWords (lowerChars (a ++ " " ++ b))
  · simp only [simpleAnalyzeSentiment, specSentimentLabel, if_pos h1]
  · by_cases h2 : keywordCount positiveWords (lowerChars (a ++ " " ++ b)) + 1 <
        keywordCount negativeWords (lowerChars (a ++ " " ++ b))
    · simp only [simpleAnalyzeSentiment, specSentimentLabel, if_neg h1, if_pos h2]
    · simp only [simpleAnalyzeSentiment, specSentimentLabel, if_neg h1, if_neg h2]

theorem confidence_mem_Icc (a b : String) :
    40 ≤ (simpleAnalyzeSentiment a b).confidence ∧
      (simpleAnalyzeSentiment a b).confidence ≤ 95 := by
  have hbound : ∀ x : ℚ, 40 ≤ max (min x 95) 40 ∧ max (min x 95) 40 ≤ 95 := by
    intro x
    exact ⟨le_max_right _ _,
      max_le (le_trans (min_le_right _ _) (by norm_num)) (by norm_num)⟩
  by_cases h1 : keywordCount negativeWords (lowerChars (a ++ " " ++ b)) + 1 <
      keywordCount positiveWords (lowerChars (a ++ " " ++ b))
  · simp only [simpleAnalyzeSentiment, if_pos h1]
    exact hbound _
  · by_cases h2 : keywordCount positiveWords (lowerChars (a ++ " " ++ b)) + 1 <
        keywordCount negativeWords (lowerChars (a ++ " " ++ b))
    · simp only [simpleAnalyzeSentiment, if_neg h1, if_pos h2]
      exact hbound _
    · simp only [simpleAnalyzeSentiment, if_neg h1, if_neg h2]
      exact hbound _

theorem trimChars_length_le (cs : List Char) : (trimChars cs).length ≤ cs.length := by
  unfold trimChars
  calc (((cs.dropWhile Char.isWhitespace).reverse.dropWhile Char.isWhitespace).reverse).length
      = ((cs.dropWhile Char.isWhitespace).reverse.dropWhile Char.isWhitespace).length := by
        rw [List.length_reverse]
    _ ≤ (cs.dropWhile Char.isWhitespace).reverse.length :=
        (List.dropWhile_sublist _).length_le
    _ = (cs.dropWhile Char.isWhitespace).length := by rw [List.length_reverse]
    _ ≤ cs.length := (List.dropWhile_sublist _).length_le

theorem isCachedResponse_refreshPipeline (tokenRes : Except String String)
    (rawPosts : List RedditPost) (insertError : Option String) :
    isCachedResponse (refreshPipeline tokenRes rawPosts insertError) = false := by
  cases tokenRes <;> rfl

/-! Claim theorems. -/

/-- C2: the sentiment label is computed from the positive/negative keyword
counts over the lower-cased combined text exactly as specified ("positive" iff
the positive count exceeds the negative count by more than 1, symmetrically
for "negative", else "neutral"); it is always one of the three labels; and it
is a pure function of the two counts. -/
theorem sentiment_label_of_counts (title text : String) :
    (simpleAnalyzeSentiment title text).sentiment =
      specSentimentLabel (keywordCount positiveWords (lowerChars (title ++ " " ++ text)))
        (keywordCount negativeWords (lowerChars (title ++ " " ++ text))) ∧
    ((simpleAnalyzeSentiment title text).sentiment = Sentiment.positive ∨
      (simpleAnalyzeSentiment title text).sentiment = Sentiment.neutral ∨
      (simpleAnalyzeSentiment title text).sentiment = Sentiment.negative) ∧
    ∀ t2 x2 : String,
      keywordCount positiveWords (lowerChars (t2 ++ " " ++ x2)) =
        keywordCount positiveWords (lowerChars (title ++ " " ++ text)) →
      keywordCount negativeWords (lowerChars (t2 ++ " " ++ x2)) =
        keywordCount negativeWords (lowerChars (title ++ " " ++ text)) →
      (simpleAnalyzeSentiment t2 x2).sentiment = (simpleAnalyzeSentiment title text).sentiment := by
  refine ⟨sentiment_eq_specLabel title text, ?_, ?_⟩
  · rw [sentiment_eq_specLabel title text]
    generalize specSentimentLabel _ _ = s
    cases s
    · exact Or.inl rfl
    · exact Or.inr (Or.inl rfl)
    · exact Or.inr (Or.inr rfl)
  · intro t2 x2 hp hn
    rw [sentiment_eq_specLabel t2 x2, sentiment_eq_specLabel title text, hp, hn]

/-- C2 witness: two different inputs with equal keyword counts get the same
label. -/
theorem sentiment_label_of_counts_witness :
    (simpleAnalyzeSentiment " " "").sentiment = (simpleAnalyzeSentiment "" "").sentiment :=
  (sentiment_label_of_counts "" "").2.2 " " "" (by decide) (by decide)

/-- C7: the classifier's confidence lies in [40, 95] (hence in the 0-100
scale); the value written to the cache row is that value divided by 100
and lies in [0, 1]; the cached read path passes the stored confidence through
unchanged. -/
theorem confidence_units (title text : String) (idx : ℕ) (post : RedditPost)
    (i : ℕ) (row : DbRow) :
    (40 ≤ (simpleAnalyzeSentiment title text).confidence ∧
      (simpleAnalyzeSentiment title text).confidence ≤ 95) ∧
    (0 ≤ (simpleAnalyzeSentiment title text).confidence ∧
      (simpleAnalyzeSentiment title text).confidence ≤ 100) ∧
    (toStoreRow (processPost idx post)).confidence = (processPost idx post).confidence / 100 ∧
    (0 ≤ (toStoreRow (processPost idx post)).confidence ∧
      (toStoreRow (processPost idx post)).confidence ≤ 1) ∧
    (mapCachedRow i row).confidence = row.confidence := by
  obtain ⟨h40, h95⟩ := confidence_mem_Icc title text
  obtain ⟨h40', h95'⟩ := confidence_mem_Icc post.title post.selftext
  refine ⟨⟨h40, h95⟩, ⟨by linarith, by linarith⟩, rfl, ⟨?_, ?_⟩, rfl⟩
  · show 0 ≤ (processPost idx post).confidence / 100
    have : (processPost idx post).confidence =
        (simpleAnalyzeSentiment post.title post.selftext).confidence := rfl
    rw [this]
    linarith
  · show (processPost idx post).confidence / 100 ≤ 1
    have : (processPost idx post).confidence =
        (simpleAnalyzeSentiment post.title post.selftext).confidence := rfl
    rw [this]
    linarith

/-- C9: with a good token the refresh path responds 200 with the freshly
classified reviews regardless of whether the cache upsert failed (the insert
error is logged only); a token failure yields exactly the generic
`{ error, details }` response with status 500. -/
theorem refresh_error_handling (tok msg : String) (rawPosts : List RedditPost)
    (insertError : Option String) :
    (refreshPipeline (Except.ok tok) rawPosts insertError =
        GetOutcome.fresh (((fetchRedditPosts rawPosts).mapIdx processPost).map toApiReview) ∧
      statusOf (refreshPipeline (Except.ok tok) rawPosts insertError) = 200 ∧
      refreshPipeline (Except.ok tok) rawPosts insertError =
        refreshPipeline (Except.ok tok) rawPosts none) ∧
    (refreshPipeline (Except.error msg) rawPosts insertError =
        GetOutcome.err "Failed to fetch Reddit data" msg ∧
      statusOf (refreshPipeline (Except.error msg) rawPosts insertError) = 500) :=
  ⟨⟨rfl, rfl, rfl⟩, rfl, rfl⟩

/-- C10: the summary is "No description available" for an empty body, else the
trimmed first 250 characters with "..." appended exactly when the body exceeds
250 characters; it never exceeds 253 characters; and the pipeline uses exactly
this summary. -/
theorem summary_truncation (s : String) (idx : ℕ) (post : RedditPost) :
    (makeSummary s = if s = "" then "No description available"
      else String.mk (trimChars (s.toList.take 250)) ++
        (if 250 < s.length then "..." else "")) ∧
    (makeSummary s).length ≤ 253 ∧
    (processPost idx post).summary = makeSummary post.selftext := by
  refine ⟨rfl, ?_, rfl⟩
  by_cases hs : s = ""
  · simp only [makeSummary, hs, if_pos]
    decide
  · rw [makeSummary, if_neg hs, String.length_append]
    have h1 : (String.mk (trimChars (s.toList.take 250))).length ≤ 250 := by
      have he : (String.mk (trimChars (s.toList.take 250))).length =
          (trimChars (s.toList.take 250)).length := rfl
      rw [he]
      calc (trimChars (s.toList.take 250)).length
          ≤ (s.toList.take 250).length := trimChars_length_le _
        _ ≤ 250 := by
            rw [List.length_take]
            exact min_le_left _ _
    have h2 : (if 250 < s.length then ("..." : String) else "").length ≤ 3 := by
      split <;> decide
    omega

/-- C8: category assignment equals first-matching-rule semantics over the
ordered rule list — later rules cannot override an earlier match — and falls
back to "General" when no rule matches. -/
theorem category_first_match (title text subreddit : String) :
    categorizePost title text subreddit =
      firstMatchCategory (lowerChars (title ++ " " ++ text)) ∧
    ((∀ p ∈ categoryRules, patMatch p.1 (lowerChars (title ++ " " ++ text)) = false) →
      categorizePost title text subreddit = "General") := by
  have hmain : categorizePost title text subreddit =
      firstMatchCategory (lowerChars (title ++ " " ++ text)) := by
    simp only [categorizePost, firstMatchCategory, categoryRules, List.find?]
    repeat' split <;> simp_all
  refine ⟨hmain, ?_⟩
  intro h
  have hnone : categoryRules.find?
      (fun p => patMatch p.1 (lowerChars (title ++ " " ++ text))) = none := by
    rw [List.find?_eq_none]
    intro p hp
    simp [h p hp]
  rw [hmain, firstMatchCategory, hnone]

/-- C8 witness: a post matching no rule is categorized "General". -/
theorem category_first_match_witness :
    categorizePost "hello" "there" "x" = "General" :=
  (category_first_match "hello" "there" "x").2 (by decide)

/-- C3: the endpoint serves the cache exactly when no refresh is forced, the
cache read reported no error and returned at least one row; in that case the
response is the cached rows mapped to the review shape with no re-analysis;
with the refresh flag set the upstream pipeline always runs, even when cache
rows exist. -/
theorem cache_first_orchestration (fr : Bool) (cache : CacheReadResult)
    (tokenRes : Except String String) (rawPosts : List RedditPost)
    (insertError : Option String) :
    (isCachedResponse (GET fr cache tokenRes rawPosts insertError) = true ↔
      fr = false ∧ cache.error = none ∧
        ∃ rows, cache.data = some rows ∧ 0 < rows.length) ∧
    (∀ rows, fr = false → cache.error = none → cache.data = some rows →
      0 < rows.length →
      GET fr cache tokenRes rawPosts insertError =
        GetOutcome.cached (rows.mapIdx mapCachedRow)) ∧
    (fr = true →
      GET fr cache tokenRes rawPosts insertError =
        refreshPipeline tokenRes rawPosts insertError) := by
  obtain ⟨data, error⟩ := cache
  refine ⟨?_, ?_, ?_⟩
  · cases fr with
    | true => simp [GET, isCachedResponse_refreshPipeline]
    | false =>
      cases error with
      | some e => simp [GET, isCachedResponse_refreshPipeline]
      | none =>
        cases data with
        | none => simp [GET, isCachedResponse_refreshPipeline]
        | some rows =>
          by_cases h : 0 < rows.length
          · simp [GET, isCachedResponse, h]
          · simp [GET, isCachedResponse_refreshPipeline, h]
  · intro rows hfr herr hdata hlen
    subst hfr
    simp only at herr hdata
    subst herr
    subst hdata
    simp [GET, hlen]
  · intro hfr
    subst hfr
    rfl

/-- A concrete cached row used by witnesses. -/
def sampleRow : DbRow :=
  { id := "r1"
    title := "t"
    content := "c"
    author := "reddit_user"
    subreddit := "motorola"
    url := "u"
    upvotes := 1
    comments := 1
    sentiment := Sentiment.neutral
    confidence := 1 / 2
    category := "General"
    has_question := false
    created_at := "2024-01-01T00:00:00.000Z" }

/-- C3 witness: with one cached row and no refresh flag the endpoint answers
from the cache even though the token exchange would fail; with the refresh
flag it runs the pipeline although the same row is cached. -/
theorem cache_first_orchestration_witness :
    GET false ⟨some [sampleRow], none⟩ (Except.error "boom") [] none =
      GetOutcome.cached ([sampleRow].mapIdx mapCachedRow) ∧
    GET true ⟨some [sampleRow], none⟩ (Except.error "boom") [] none =
      refreshPipeline (Except.error "boom") [] none := by
  constructor
  · exact (cache_first_orchestration false ⟨some [sampleRow], none⟩
      (Except.error "boom") [] none).2.1 [sampleRow] rfl rfl rfl (by decide)
  · exact (cache_first_orchestration true ⟨some [sampleRow], none⟩
      (Except.error "boom") [] none).2.2 rfl

/-- C6: the dashboard's is-a-question flag is true exactly when the title
contains a literal question mark, or the lower-cased combined text contains
one of the fixed help-seeking keywords, or it contains the literal word
"question". -/
theorem question_flag_iff (title summary : String) :
    detectQuestion title summary = true ↔
      (∃ l r, title.toList = l ++ "?".toList ++ r) ∨
      (∃ k ∈ questionKeywords, ∃ l r,
        lowerChars (title ++ " " ++ summary) = l ++ k.toList ++ r) ∨
      (∃ l r, lowerChars (title ++ " " ++ summary) = l ++ "question".toList ++ r) := by
  simp only [detectQuestion, jsIncludes, Bool.or_eq_true, List.any_eq_true, occursIn_iff]
  exact or_assoc

/-- The raw post of the specification's end-to-end example. -/
def examplePost : RedditPost :=
  { id := "example1"
    title := "Battery issue?"
    selftext := "my battery is terrible"
    subreddit := "motorola"
    ups := 10
    num_comments := 2
    permalink := "/r/motorola/comments/example1"
    created_utc := 0 }

/-- C1 counterexample: on the example post the pipeline does NOT produce the
claimed triple, because the sentiment comes out "neutral": the negative list
contains "issues" (plural), so only "terrible" is counted, and one negative
keyword does not exceed zero positive keywords by more than 1. -/
theorem example_pipeline_not_negative :
    ¬ ((processPost 0 examplePost).hasQuestion = true ∧
       (processPost 0 examplePost).sentiment = Sentiment.negative ∧
       (processPost 0 examplePost).category = "Battery/Charging") := by
  intro h
  exact absurd h.2.1 (by decide)

/-- C1 amended: the example post yields isQuestion = true and
category = "Battery/Charging" as claimed, but sentiment = "neutral"; the
dashboard's question detector agrees on the question flag. -/
theorem example_pipeline_results :
    (processPost 0 examplePost).hasQuestion = true ∧
    (processPost 0 examplePost).sentiment = Sentiment.neutral ∧
    (processPost 0 examplePost).category = "Battery/Charging" ∧
    detectQuestion examplePost.title (processPost 0 examplePost).summary = true := by
  refine ⟨by decide, by decide, by decide, by decide⟩


/-! Lemmas about the JavaScript `Map` model used for deduplication. -/

/-- Lookup by key: the first entry whose key matches. -/
def findEntry (m : List Entry) (k : String) : Option Entry :=
  m.find? (fun e => e.1 == k)

theorem findEntry_insertEntry (m : List Entry) (kv : Entry) (k : String) :
    findEntry (insertEntry m kv) k = if kv.1 == k then some kv else findEntry m k := by
  unfold insertEntry findEntry
  by_cases hany : m.any (fun e => e.1 == kv.1) = true
  · rw [if_pos hany]
    by_cases hk : (kv.1 == k) = true
    · have hk' : kv.1 = k := beq_iff_eq.mp hk
      rw [if_pos hk, List.find?_map]
      have hpf : ((fun e : Entry => e.1 == k) ∘ fun e : Entry => if e.1 == kv.1 then kv else e) =
          fun e : Entry => e.1 == kv.1 := by
        subst hk'
        funext e
        by_cases h : (e.1 == kv.1) = true <;> simp [Function.comp, h]
      rw [hpf]
      have hsome : (m.find? fun e => e.1 == kv.1).isSome = true :=
        List.find?_isSome.mpr (List.any_eq_true.mp hany)
      obtain ⟨e1, he1⟩ := Option.isSome_iff_exists.mp hsome
      have hp1 := List.find?_some he1
      rw [he1, Option.map_some']
      rw [if_pos hp1]
    · rw [if_neg hk, List.find?_map]
      have hpf : ((fun e : Entry => e.1 == k) ∘ fun e : Entry => if e.1 == kv.1 then kv else e) =
          fun e : Entry => e.1 == k := by
        funext e
        by_cases h : (e.1 == kv.1) = true
        · have he : e.1 = kv.1 := beq_iff_eq.mp h
          simp only [Function.comp_apply, if_pos h]
          rw [he]
        · simp [Function.comp, h]
      rw [hpf]
      cases hfind : m.find? (fun e => e.1 == k) with
      | none => simp
      | some e =>
        have hp := List.find?_some hfind
        have hne : (e.1 == kv.1) = false := by
          rw [beq_eq_false_iff_ne]
          intro hc
          rw [hc] at hp
          exact absurd hp (by simp [hk])
        rw [Option.map_some', if_neg (by simp [hne])]
  · have h0 : m.any (fun e => e.1 == kv.1) = false := by
      cases hb : m.any (fun e => e.1 == kv.1)
      · rfl
      · exact absurd hb hany
    have hanyf := List.any_eq_false.mp h0
    rw [if_neg hany, List.find?_append]
    by_cases hk : (kv.1 == k) = true
    · have hk' : kv.1 = k := beq_iff_eq.mp hk
      have hnone : m.find? (fun e => e.1 == k) = none := by
        rw [List.find?_eq_none]
        intro e he
        rw [← hk']
        exact hanyf e he
      rw [if_pos hk, hnone]
      simp [List.find?, hk]
    · rw [if_neg hk]
      have h1 : List.find? (fun e => e.1 == k) [kv] = none := by
        simp [List.find?, hk]
      rw [h1, Option.or_none]

theorem findEntry_foldl (l : List Entry) : ∀ (m : List Entry) (k : String),
    findEntry (l.foldl insertEntry m) k = (findEntry l.reverse k).or (findEntry m k) := by
  induction l with
  | nil =>
    intro m k
    simp [findEntry, List.find?, Option.none_or]
  | cons a l ih =>
    intro m k
    rw [List.foldl_cons, ih (insertEntry m a) k, findEntry_insertEntry, List.reverse_cons]
    unfold findEntry
    rw [List.find?_append, Option.or_assoc]
    congr 1
    by_cases h : (a.1 == k) = true <;> simp [List.find?, h, Option.or_none]

theorem nodup_keys_insertEntry (m : List Entry) (kv : Entry)
    (h : (m.map Prod.fst).Nodup) : ((insertEntry m kv).map Prod.fst).Nodup := by
  unfold insertEntry
  by_cases hany : m.any (fun e => e.1 == kv.1) = true
  · rw [if_pos hany, List.map_map]
    have hpf : (m.map (Prod.fst ∘ fun e : Entry => if e.1 == kv.1 then kv else e)) =
        m.map Prod.fst := by
      refine List.map_congr_left ?_
      intro e he
      by_cases hc : (e.1 == kv.1) = true
      · have : e.1 = kv.1 := beq_iff_eq.mp hc
        simp only [Function.comp_apply, if_pos hc]
        exact this.symm
      · simp [Function.comp, hc]
    rw [hpf]
    exact h
  · have h0 : m.any (fun e => e.1 == kv.1) = false := by
      cases hb : m.any (fun e => e.1 == kv.1)
      · rfl
      · exact absurd hb hany
    have hanyf := List.any_eq_false.mp h0
    rw [if_neg hany, List.map_append]
    rw [List.nodup_append]
    refine ⟨h, List.nodup_singleton _, ?_⟩
    intro x hx
    rcases List.mem_map.mp hx with ⟨e, he, rfl⟩
    intro hx2
    rcases List.mem_singleton.mp hx2 with h'
    have : ¬(e.1 == kv.1) = true := hanyf e he
    exact this (beq_iff_eq.mpr h')

theorem nodup_keys_foldl (l : List Entry) : ∀ m : List Entry,
    (m.map Prod.fst).Nodup → ((l.foldl insertEntry m).map Prod.fst).Nodup := by
  induction l with
  | nil => intro m h; exact h
  | cons a l ih =>
    intro m h
    rw [List.foldl_cons]
    exact ih (insertEntry m a) (nodup_keys_insertEntry m a h)

theorem findEntry_of_mem : ∀ (m : List Entry), (m.map Prod.fst).Nodup →
    ∀ e : Entry, e ∈ m → findEntry m e.1 = some e := by
  intro m
  induction m with
  | nil => intro _ e he; cases he
  | cons a t ih =>
    intro h e he
    have h' : a.1 ∉ t.map Prod.fst ∧ (t.map Prod.fst).Nodup := by
      rw [List.map_cons, List.nodup_cons] at h
      exact h
    rcases List.mem_cons.mp he with rfl | hmem
    · unfold findEntry
      rw [List.find?_cons_of_pos _ (by simp)]
    · have hne : (a.1 == e.1) = false := by
        rw [beq_eq_false_iff_ne]
        intro hc
        exact h'.1 (hc ▸ List.mem_map_of_mem Prod.fst hmem)
      unfold findEntry
      rw [List.find?_cons_of_neg _ (by simp [hne])]
      exact ih h'.2 e hmem

theorem mem_of_mem_foldl_insertEntry (l : List Entry) : ∀ (m : List Entry) (e : Entry),
    e ∈ l.foldl insertEntry m → e ∈ m ∨ e ∈ l := by
  induction l with
  | nil => intro m e h; exact Or.inl h
  | cons a l ih =>
    intro m e h
    rw [List.foldl_cons] at h
    rcases ih (insertEntry m a) e h with h1 | h2
    · unfold insertEntry at h1
      split at h1
      · rcases List.mem_map.mp h1 with ⟨x, hx, hfx⟩
        by_cases hxk : (x.1 == a.1) = true
        · rw [if_pos hxk] at hfx
          exact Or.inr (hfx ▸ List.mem_cons_self a l)
        · rw [if_neg hxk] at hfx
          exact Or.inl (hfx ▸ hx)
      · rcases List.mem_append.mp h1 with h3 | h3
        · exact Or.inl h3
        · exact Or.inr (List.mem_singleton.mp h3 ▸ List.mem_cons_self a l)
    · exact Or.inr (List.mem_cons_of_mem a h2)

/-- C4: deduplication is unique-by-identifier with last-seen wins: every id
occurs at most once in the output, and each output post is the last post with
its id in the relevance-filtered input (in list order). -/
theorem dedupe_last_wins (l : List RedditPost) :
    ((uniquePosts l).map (fun p => p.id)).Nodup ∧
    ∀ p ∈ uniquePosts l,
      (l.filter relevantFilter).reverse.find? (fun q => q.id == p.id) = some p := by
  have hkeys : ((jsMapEntries ((l.filter relevantFilter).map entryOf)).map Prod.fst).Nodup := by
    unfold jsMapEntries
    exact nodup_keys_foldl _ [] (by simp)
  constructor
  · unfold uniquePosts
    rw [List.map_map]
    have heq : (jsMapEntries ((l.filter relevantFilter).map entryOf)).map
        ((fun p : RedditPost => p.id) ∘ Prod.snd) =
        (jsMapEntries ((l.filter relevantFilter).map entryOf)).map Prod.fst := by
      refine List.map_congr_left ?_
      intro e he
      have hmem : e ∈ (l.filter relevantFilter).map entryOf := by
        have h2 := mem_of_mem_foldl_insertEntry ((l.filter relevantFilter).map entryOf)
          [] e (by unfold jsMapEntries at he; exact he)
        rcases h2 with h3 | h3
        · cases h3
        · exact h3
      rcases List.mem_map.mp hmem with ⟨q, hq, rfl⟩
      rfl
    rw [heq]
    exact hkeys
  · intro p hp
    unfold uniquePosts at hp
    rcases List.mem_map.mp hp with ⟨e, he, rfl⟩
    have hmem : e ∈ (l.filter relevantFilter).map entryOf := by
      have h2 := mem_of_mem_foldl_insertEntry ((l.filter relevantFilter).map entryOf)
        [] e (by unfold jsMapEntries at he; exact he)
      rcases h2 with h3 | h3
      · cases h3
      · exact h3
    rcases List.mem_map.mp hmem with ⟨q, hq, hqe⟩
    have hfind0 : findEntry (jsMapEntries ((l.filter relevantFilter).map entryOf)) e.1 =
        some e := findEntry_of_mem _ hkeys e he
    have hfold := findEntry_foldl ((l.filter relevantFilter).map entryOf) [] e.1
    unfold jsMapEntries at hfind0
    rw [hfold] at hfind0
    have hnil : findEntry ([] : List Entry) e.1 = none := rfl
    rw [hnil, Option.or_none] at hfind0
    rw [← List.map_reverse] at hfind0
    unfold findEntry at hfind0
    rw [List.find?_map] at hfind0
    subst hqe
    have hcomp : ((fun x : Entry => x.1 == (entryOf q).1) ∘ entryOf) =
        fun r : RedditPost => r.id == (entryOf q).2.id := rfl
    rw [hcomp] at hfind0
    cases hf : (l.filter relevantFilter).reverse.find?
        (fun r => r.id == (entryOf q).2.id) with
    | none =>
      rw [hf] at hfind0
      simp at hfind0
    | some r =>
      rw [hf, Option.map_some'] at hfind0
      have hr : entryOf r = entryOf q := Option.some_injective _ hfind0
      have hr2 : r = (entryOf q).2 := congrArg Prod.snd hr
      rw [hr2]

/-- Two posts sharing an id, both relevant, used by the C4 witness. -/
def dupPostA : RedditPost :=
  { id := "dup", title := "motorola a", selftext := "", subreddit := "motorola",
    ups := 1, num_comments := 0, permalink := "/a", created_utc := 0 }

/-- Second post with the same id as `dupPostA`. -/
def dupPostB : RedditPost :=
  { id := "dup", title := "motorola b", selftext := "", subreddit := "motorola",
    ups := 2, num_comments := 0, permalink := "/b", created_utc := 0 }

/-- C4 witness: of two posts sharing an id the later one is retained, and the
output ids are duplicate-free. -/
theorem dedupe_last_wins_witness :
    (((uniquePosts [dupPostA, dupPostB]).map (fun p => p.id)).Nodup ∧
      ([dupPostA, dupPostB].filter relevantFilter).reverse.find?
        (fun q => q.id == dupPostB.id) = some dupPostB) := by
  have h := dedupe_last_wins [dupPostA, dupPostB]
  refine ⟨h.1, ?_⟩
  exact h.2 dupPostB (by decide)

theorem postLE_trans : ∀ a b c : RedditPost,
    postLE a b = true → postLE b c = true → postLE a c = true := by
  intro a b c
  simp only [postLE, jsCompare, decide_eq_true_eq]
  cases ha : isPrimary a <;> cases hb : isPrimary b <;> cases hc : isPrimary c <;>
    simp_all <;> omega

theorem postLE_total : ∀ a b : RedditPost, (postLE a b || postLE b a) = true := by
  intro a b
  simp only [postLE, jsCompare, Bool.or_eq_true, decide_eq_true_eq]
  cases ha : isPrimary a <;> cases hb : isPrimary b <;> simp_all <;> omega

/-- C5: in the fetcher's output a non-primary post is never followed by an
r/motorola post; posts in the same tier appear in non-increasing order of
upvotes + comments; and the output has at most 990 posts. -/
theorem ranking_primary_first (l : List RedditPost) :
    (fetchRedditPosts l).Pairwise (fun a b =>
      (isPrimary b = true → isPrimary a = true) ∧
      (isPrimary a = isPrimary b → engagement b ≤ engagement a)) ∧
    (fetchRedditPosts l).length ≤ 990 := by
  constructor
  · have hs := List.sorted_mergeSort postLE_trans postLE_total (uniquePosts l)
    have ht : (fetchRedditPosts l).Pairwise (fun a b => postLE a b = true) := by
      unfold fetchRedditPosts
      exact List.Pairwise.sublist (List.take_sublist 990 _) hs
    refine ht.imp ?_
    intro a b hab
    simp only [postLE, jsCompare, decide_eq_true_eq] at hab
    constructor
    · intro hbp
      cases ha : isPrimary a
      · rw [ha, hbp] at hab
        simp at hab
      · rfl
    · intro heq
      rw [heq] at hab
      simp only [engagement]
      cases hb : isPrimary b <;> rw [hb] at hab <;> simp_all
  · unfold fetchRedditPosts
    rw [List.length_take]
    exact min_le_left _ _

/-- A non-primary post for the C5 witness. -/
def otherPost : RedditPost :=
  { id := "oth", title := "moto g talk", selftext := "", subreddit := "Android",
    ups := 100, num_comments := 5, permalink := "/c", created_utc := 0 }

/-- C5 witness: the ranking theorem applied to a concrete mixed input. -/
theorem ranking_primary_first_witness :
    ([dupPostA, otherPost] |> fetchRedditPosts).Pairwise (fun a b =>
      (isPrimary b = true → isPrimary a = true) ∧
      (isPrimary a = isPrimary b → engagement b ≤ engagement a)) ∧
    ([dupPostA, otherPost] |> fetchRedditPosts).length ≤ 990 :=
  ranking_primary_first [dupPostA, otherPost]

/-- C6 witness: a concrete title containing a question mark is flagged. -/
theorem question_flag_iff_witness : detectQuestion "Help?" "" = true :=
  (question_flag_iff "Help?" "").mpr (Or.inl ⟨"Help".toList, [], by decide⟩)

/-- C7 witness: the stored confidence of a concrete processed post is the
response confidence divided by 100, and a concrete cached row's confidence is
passed through unchanged. -/
theorem confidence_units_witness :
    (toStoreRow (processPost 0 examplePost)).confidence =
      (processPost 0 examplePost).confidence / 100 ∧
    (mapCachedRow 0 sampleRow).confidence = sampleRow.confidence := by
  have h := confidence_units "a" "b" 0 examplePost 0 sampleRow
  exact ⟨h.2.2.1, h.2.2.2.2⟩

/-- C9 witness: concrete refresh-path outcomes for a failing token exchange
and for a successful one with a failing upsert. -/
theorem refresh_error_handling_witness :
    refreshPipeline (Except.error "boom") [] (some "dbfail") =
      GetOutcome.err "Failed to fetch Reddit data" "boom" ∧
    statusOf (refreshPipeline (Except.ok "tok") [] (some "dbfail")) = 200 := by
  have h := refresh_error_handling "tok" "boom" [] (some "dbfail")
  exact ⟨h.2.1, h.1.2.1⟩

/-- C10 witness: the summary bound and the pipeline's use of the summary at a
concrete post. -/
theorem summary_truncation_witness :
    (makeSummary "").length ≤ 253 ∧
    (processPost 0 examplePost).summary = makeSummary examplePost.selftext := by
  have h := summary_truncation "" 0 examplePost
  exact ⟨h.2.1, h.2.2⟩
